import Mathlib

/-!
Verification of the hddtemp_rust disk-temperature reporter.

The repository is a single Rust program (src/main.rs) that enumerates block
devices, probes each one with the smartctl diagnostics utility under a
sequence of device-type hints, extracts vendor, model and temperature from
smartctl's JSON (or free-text) output, and prints a table.

This development shallowly embeds the program's pure decision logic:
  - the string operations the program uses (Rust lines, split_whitespace,
    contains, starts_with, to_lowercase, i64 parsing) are re-implemented
    here by structural recursion on character lists so that every
    definition is executable and kernel-reducible;
  - serde_json values are modelled by the inductive Json type below, and
    serde's indexing and accessor semantics by Json.index, Json.as_str,
    Json.as_i64, Json.as_array.  Numbers are modelled as mathematical
    integers (the program only ever reads them through as_i64);
  - the external subprocess boundary (spawning smartctl, lsblk) is
    modelled by passing the observable result of each invocation as an
    argument: parse_smartctl_output receives the serde parse result of the
    captured stdout together with the raw text, and the prober receives a
    runner function from device-type hint to invocation outcome.
-/

/-! ## Rust-style string primitives, structural on character lists -/

/-- Splits a character list into maximal whitespace-free tokens; the second
argument accumulates the characters of the current token in reverse.
Models Rust str::split_whitespace (for ASCII whitespace). -/
def wsTokens : List Char → List Char → List String
  | [], acc => if acc.isEmpty then [] else [String.mk acc.reverse]
  | c :: cs, acc =>
    if c.isWhitespace then
      if acc.isEmpty then wsTokens cs [] else String.mk acc.reverse :: wsTokens cs []
    else wsTokens cs (c :: acc)

/-- Rust str::split_whitespace: whitespace-delimited tokens, no empties. -/
def splitWhitespace (s : String) : List String := wsTokens s.toList []

/-- Is the first list a prefix of the second?  Helper for substring search. -/
def prefixOfChars : List Char → List Char → Bool
  | [], _ => true
  | _ :: _, [] => false
  | p :: ps, c :: cs => p == c && prefixOfChars ps cs

/-- Does the pattern occur as a contiguous sublist of the haystack? -/
def containsChars (pat : List Char) : List Char → Bool
  | [] => pat.isEmpty
  | c :: cs => prefixOfChars pat (c :: cs) || containsChars pat cs

/-- Rust str::contains with a string pattern (substring occurrence). -/
def containsStr (s pat : String) : Bool := containsChars pat.toList s.toList

/-- Rust str::starts_with with a string pattern. -/
def strStartsWith (s pat : String) : Bool := prefixOfChars pat.toList s.toList

/-- Rust str::to_lowercase, restricted to ASCII case mapping (the only
characters the program ever compares are ASCII). -/
def lowerStr (s : String) : String := String.mk (s.toList.map Char.toLower)

/-- Strips one trailing carriage return from a line accumulated in reverse
order, then restores the forward order.  Rust str::lines removes at most
one trailing CR per line. -/
def finishLine (acc : List Char) : String :=
  match acc with
  | '\r' :: rest => String.mk rest.reverse
  | _ => String.mk acc.reverse

/-- Splits a character list at newline characters; the second argument
accumulates the current line in reverse.  A trailing final newline does not
produce an empty last line, matching Rust str::lines. -/
def linesChars : List Char → List Char → List String
  | [], acc => if acc.isEmpty then [] else [finishLine acc]
  | c :: cs, acc =>
    if c == '\n' then finishLine acc :: linesChars cs []
    else linesChars cs (c :: acc)

/-- Rust str::lines. -/
def rustLines (s : String) : List String := linesChars s.toList []

/-- Decimal value of a digit character list (assumed all ASCII digits). -/
def digitsToNat (cs : List Char) : Nat :=
  cs.foldl (fun acc c => acc * 10 + (c.toNat - 48)) 0

/-- Rust str::parse::<i64>: an optional single leading sign, then at least
one ASCII digit and nothing else, and the value must fit in an i64. -/
def rustParseI64 (s : String) : Option Int :=
  let cs := s.toList
  let signed : Bool × List Char :=
    match cs with
    | '+' :: rest => (false, rest)
    | '-' :: rest => (true, rest)
    | _ => (false, cs)
  if !signed.2.isEmpty && signed.2.all (fun c => c.isDigit) then
    let v : Int := if signed.1 then -(digitsToNat signed.2 : Int) else (digitsToNat signed.2 : Int)
    if -(2 ^ 63) ≤ v ∧ v < 2 ^ 63 then some v else none
  else none

/-! ## The serde_json value model -/

/-- Model of serde_json::Value.  Numbers carry a mathematical integer: the
program reads numbers only through as_i64, and values that are not
i64-representable integers (floats, oversized numbers) are modelled by any
constructor other than num, on which as_i64 returns none. -/
inductive Json where
  | null
  | bool (b : Bool)
  | num (n : Int)
  | str (s : String)
  | arr (xs : List Json)
  | obj (fields : List (String × Json))

/-- First binding of a key in an object's field list (serde maps have
unique keys, so first-match lookup models map lookup). -/
def Json.getKey : List (String × Json) → String → Json
  | [], _ => Json.null
  | (k, v) :: rest, key => if k == key then v else Json.getKey rest key

/-- serde_json indexing value[key]: field lookup on objects, Null on
missing keys and on non-objects. -/
def Json.index : Json → String → Json
  | Json.obj fields, key => Json.getKey fields key
  | _, _ => Json.null

/-- serde_json Value::as_str. -/
def Json.as_str : Json → Option String
  | Json.str s => some s
  | _ => none

/-- serde_json Value::as_i64. -/
def Json.as_i64 : Json → Option Int
  | Json.num n => some n
  | _ => none

/-- serde_json Value::as_array. -/
def Json.as_array : Json → Option (List Json)
  | Json.arr xs => some xs
  | _ => none

/-! ## The output extractor (parse_smartctl_output and its text fallback) -/

/-- The token filter of the text fallback: among the whitespace-delimited
tokens of a line, the first one that parses as an i64 lying strictly
between 0 and 150. -/
def temp_token (line : String) : Option Int :=
  ((splitWhitespace line).filterMap rustParseI64).find?
    (fun t => decide (0 < t) && decide (t < 150))

/-- The line loop of extract_temperature_from_text: visit lines in order,
and on each line containing "Temperature" or "Airflow_Temperature" return
the first qualifying token if there is one, otherwise keep scanning. -/
def scan_lines : List String → Option Int
  | [] => none
  | line :: rest =>
    if containsStr line "Temperature" || containsStr line "Airflow_Temperature" then
      match temp_token line with
      | some t => some t
      | none => scan_lines rest
    else scan_lines rest

/-- extract_temperature_from_text from src/main.rs: the free-text fallback
used when the JSON parse fails. -/
def extract_temperature_from_text (output : String) : Option Int :=
  scan_lines (rustLines output)

/-- The per-attribute closure of the ata_smart_attributes table scan in
parse_smartctl_output: an entry contributes a value when its name field is
a string whose lowercasing contains "temperature" or "temp", taking
raw.value and falling back to value; entries without a string name or
without an integer in either place contribute nothing. -/
def attr_temp (attr : Json) : Option Int :=
  match (attr.index "name").as_str with
  | none => none
  | some name =>
    let lname := lowerStr name
    if containsStr lname "temperature" || containsStr lname "temp" then
      (((attr.index "raw").index "value").as_i64).orElse
        (fun _ => (attr.index "value").as_i64)
    else none

/-- The iterator chain attributes.iter().filter_map(..).next() over the
attribute table. -/
def scan_table (attrs : List Json) : Option Int :=
  (attrs.filterMap attr_temp).head?

/-- The temperature expression of parse_smartctl_output: the prioritized
fallback chain over temperature.current, temperature,
nvme_smart_health_information_log.temperature and the
ata_smart_attributes.table scan. -/
def resolve_temperature (j : Json) : Option Int :=
  (((j.index "temperature").index "current").as_i64).orElse (fun _ =>
    ((j.index "temperature").as_i64).orElse (fun _ =>
      (((j.index "nvme_smart_health_information_log").index "temperature").as_i64).orElse (fun _ =>
        match ((j.index "ata_smart_attributes").index "table").as_array with
        | some attributes => scan_table attributes
        | none => none)))

/-- The model expression of parse_smartctl_output: model_name, else
model_family, else scsi_model_name, else the "Unknown Model" sentinel. -/
def resolve_model (j : Json) : String :=
  (((j.index "model_name").as_str).orElse (fun _ =>
    ((j.index "model_family").as_str).orElse (fun _ =>
      (j.index "scsi_model_name").as_str))).getD "Unknown Model"

/-- The split-heuristic branch of parse_smartctl_output: first whitespace
token of the model string as the vendor guess (sentinel "Unknown Vendor"
when there is none), remaining tokens joined by single spaces as the model
guess. -/
def guess_vendor_model (model : String) : String × String :=
  let parts := splitWhitespace model
  (parts.head?.getD "Unknown Vendor", String.intercalate " " parts.tail)

/-- The JSON-success branch of parse_smartctl_output: scsi_vendor and
scsi_product win when both are present and non-empty, otherwise the model
string is split; the temperature chain is attached unchanged. -/
def parse_json_doc (j : Json) : String × String × Option Int :=
  let vendor := ((j.index "scsi_vendor").as_str).getD ""
  let product := ((j.index "scsi_product").as_str).getD ""
  let vm := if vendor != "" && product != "" then (vendor, product)
            else guess_vendor_model (resolve_model j)
  (vm.1, vm.2, resolve_temperature j)

/-- parse_smartctl_output from src/main.rs.  The serde_json parse of the
captured stdout is an external step, so the function takes its result as
the first argument (some document on parse success, none on parse
failure) next to the raw text it was parsed from; the serde error detail
interpolated into the Rust error message is not modelled, only the fixed
message prefix. -/
def parse_smartctl_output (parsed : Option Json) (output_str : String) :
    Except String (String × String × Option Int) :=
  match parsed with
  | some json_data => .ok (parse_json_doc json_data)
  | none =>
    match extract_temperature_from_text output_str with
    | some temp => .ok ("Unknown Vendor", "Unknown Model", some temp)
    | none => .error "Failed to parse smartctl output"

/-! ## The device prober (get_disk_info_and_temperature) -/

/-- DEVICE_TYPES from src/main.rs; the empty string is the default mode
with no -d hint. -/
def DEVICE_TYPES : List String := ["", "ata", "sat", "scsi", "nvme"]

/-- The argument list built for one smartctl invocation: --json -a, then
-d hint when a hint is given, then the device path. -/
def smartctl_args (device_type device : String) : List String :=
  (["--json", "-a"] ++ (if device_type != "" then ["-d", device_type] else [])) ++ [device]

/-- Observable outcome of one smartctl invocation, the external boundary
of the prober: spawning may fail, waiting may fail, or the process
completes with an exit-status flag, captured stdout, and the serde parse
result of that stdout (the parse itself is deterministic in the stdout;
carrying it here keeps the embedding executable). -/
inductive Attempt where
  | spawn_err
  | wait_err
  | completed (exit_ok : Bool) (stdout : String) (parsed : Option Json)

/-- The hint loop of get_disk_info_and_temperature: one iteration per
device type, continuing past spawn errors, wait errors, empty stdout and
extraction failures, and returning the first successful extraction; the
exit status of a completed invocation is never consulted. -/
def probe_go (runner : String → Attempt) (device : String) :
    List String → Except String (String × String × Option Int)
  | [] => .error ("All attempts failed for device: " ++ device)
  | device_type :: rest =>
    match runner device_type with
    | .spawn_err => probe_go runner device rest
    | .wait_err => probe_go runner device rest
    | .completed _ stdout parsed =>
      if stdout != "" then
        match parse_smartctl_output parsed stdout with
        | .ok info => .ok info
        | .error _ => probe_go runner device rest
      else probe_go runner device rest

/-- get_disk_info_and_temperature from src/main.rs: runner device_type
stands for spawning smartctl with smartctl_args device_type device and
collecting its outcome. -/
def get_disk_info_and_temperature (runner : String → Attempt) (device : String) :
    Except String (String × String × Option Int) :=
  probe_go runner device DEVICE_TYPES

/-- Outcome of a single hint attempt as the loop classifies it: some info
exactly when the invocation completed with non-empty stdout whose
extraction succeeded.  Analysis view of one probe_go iteration. -/
def attempt_outcome : Attempt → Option (String × String × Option Int)
  | .spawn_err => none
  | .wait_err => none
  | .completed _ stdout parsed =>
    if stdout != "" then
      match parse_smartctl_output parsed stdout with
      | .ok info => some info
      | .error _ => none
    else none

/-! ## The device lister (get_all_disk_devices) -/

/-- The per-line closure of get_all_disk_devices: a line yields a device
path when it has at least two whitespace-delimited columns, the second
column equals "disk", and the path /dev/<name> built from the first
column does not start with /dev/zd or /dev/fd. -/
def lsblk_line_device (line : String) : Option String :=
  match splitWhitespace line with
  | name :: ty :: _ =>
    if ty == "disk" then
      let device_path := "/dev/" ++ name
      if !(strStartsWith device_path "/dev/zd") && !(strStartsWith device_path "/dev/fd") then
        some device_path
      else none
    else none
  | _ => none

/-- get_all_disk_devices from src/main.rs, as a function of the captured
lsblk stdout (running lsblk, and aborting when its exit status is a
failure, are external steps outside this embedding). -/
def get_all_disk_devices (stdout : String) : List String :=
  (rustLines stdout).filterMap lsblk_line_device

/-! ## Per-device records built in main -/

/-- Rust format "{:3}": right-align in a field of width 3 with spaces. -/
def pad3 (s : String) : String :=
  if s.length < 3 then "".pushn ' ' (3 - s.length) ++ s else s

/-- The TEMP column text of main: the padded integer followed by the
degree-Celsius suffix, or N/A when the temperature is absent. -/
def format_temp (t : Option Int) : String :=
  match t with
  | some v => pad3 (toString v) ++ "°C"
  | none => "N/A"

/-- The record main builds for one device from its probe result: on
success the vendor, model, rendered temperature and OK status; on failure
the literal Failed strings, the error message in the temperature column,
and FAIL status. -/
def make_record (device : String) (r : Except String (String × String × Option Int)) :
    String × String × String × String × String :=
  match r with
  | .ok (vendor, model, temp) => (device, vendor, model, format_temp temp, "OK")
  | .error e => (device, "Failed", "Failed", e, "FAIL")

/-- The results collection of main: one record per device in device-list
order (rayon's par_iter().map().collect() preserves order), each built
from that device's own probe result only. -/
def run_all (devices : List String)
    (probe : String → Except String (String × String × Option Int)) :
    List (String × String × String × String × String) :=
  devices.map (fun device => make_record device (probe device))

/-! ## Spec-side definitions, following the specification's wording, for
comparison with the source-derived definitions above -/

/-- Spec step 4a: the nested current-temperature value. -/
def spec_temp_a (j : Json) : Option Int :=
  ((j.index "temperature").index "current").as_i64

/-- Spec step 4b: the flat temperature value. -/
def spec_temp_b (j : Json) : Option Int :=
  (j.index "temperature").as_i64

/-- Spec step 4c: the device-family-specific nested health-log
temperature field. -/
def spec_temp_c (j : Json) : Option Int :=
  ((j.index "nvme_smart_health_information_log").index "temperature").as_i64

/-- Spec step 4d: the first attribute-table entry whose name
case-insensitively contains temperature or temp and carries an integer in
raw.value or value. -/
def spec_temp_d (j : Json) : Option Int :=
  match ((j.index "ata_smart_attributes").index "table").as_array with
  | some attrs => scan_table attrs
  | none => none

/-- The four-step temperature chain the code implements: steps 4a to 4d
in order, first present value winning, absent otherwise. -/
def spec_temp_chain4 (j : Json) : Option Int :=
  (spec_temp_a j).orElse (fun _ =>
    (spec_temp_b j).orElse (fun _ =>
      (spec_temp_c j).orElse (fun _ => spec_temp_d j)))

/-- The five-step temperature chain the claim describes: steps 4a to 4d
and then a flat lookup of a further field f, the claimed
device-family-specific flat temperature fallback. -/
def spec_temp_chain5 (f : String) (j : Json) : Option Int :=
  (spec_temp_chain4 j).orElse (fun _ => (j.index f).as_i64)

/-- Vendor as the code actually resolves it, stated compositionally: the
explicit scsi_vendor wins when both scsi_vendor and scsi_product are
present and non-empty; otherwise the first whitespace token of the model
string, with the "Unknown Vendor" sentinel when that string has no
tokens. -/
def amended_vendor (j : Json) : String :=
  if ((j.index "scsi_vendor").as_str).getD "" != "" &&
     ((j.index "scsi_product").as_str).getD "" != "" then
    ((j.index "scsi_vendor").as_str).getD ""
  else
    ((splitWhitespace (resolve_model j)).head?).getD "Unknown Vendor"

/-- Model as the code actually resolves it, stated compositionally: the
scsi_product when the explicit pair wins, otherwise the model string's
tokens after the first, joined by single spaces. -/
def amended_model (j : Json) : String :=
  if ((j.index "scsi_vendor").as_str).getD "" != "" &&
     ((j.index "scsi_product").as_str).getD "" != "" then
    ((j.index "scsi_product").as_str).getD ""
  else
    String.intercalate " " (splitWhitespace (resolve_model j)).tail

/-- The text fallback stated compositionally: over the lines in order,
the first qualifying token of the first line that contains "Temperature"
or "Airflow_Temperature" and has such a token. -/
def amended_text_scan (raw : String) : Option Int :=
  ((rustLines raw).filterMap (fun line =>
    if containsStr line "Temperature" || containsStr line "Airflow_Temperature" then
      temp_token line
    else none)).head?

/-! ## Concrete documents used by witnesses and counterexamples -/

/-- A structured document whose only temperature source is an attribute
named Temperature_Celsius with raw value 41. -/
def doc_attr41 : Json :=
  Json.obj [("model_name", Json.str "WDC WD40EFRX"),
    ("ata_smart_attributes", Json.obj [("table", Json.arr
      [Json.obj [("name", Json.str "Temperature_Celsius"),
                 ("raw", Json.obj [("value", Json.num 41)])]])])]

/-- A structured document with a nested temperature.current field. -/
def doc_current37 : Json :=
  Json.obj [("temperature", Json.obj [("current", Json.num 37)])]

/-- A structured document carrying a family string next to an explicit
scsi vendor and product pair. -/
def doc_family_and_scsi : Json :=
  Json.obj [("model_family", Json.str "Seagate IronWolf"),
    ("scsi_vendor", Json.str "ACME"), ("scsi_product", Json.str "X100")]

/-- A structured document exposing only a family string. -/
def doc_family_only : Json :=
  Json.obj [("model_family", Json.str "Seagate IronWolf Pro")]

/-- An attribute entry matching the temperature name filter whose raw and
plain values are both strings, hence carrying no integer. -/
def attr_text_entry : Json :=
  Json.obj [("name", Json.str "Temperature_Celsius"),
    ("raw", Json.obj [("value", Json.str "41 h")]), ("value", Json.str "x")]

/-- An attribute entry matching the name filter with an integer plain
value and no raw value. -/
def attr_num_entry : Json :=
  Json.obj [("name", Json.str "Airflow_Temperature_Cel"), ("value", Json.num 39)]

/-- A typical free-text SMART attribute line for the text fallback. -/
def line194 : String :=
  "194 Temperature_Celsius 0x0022 035 021 000 Old_age Always - 35 (Min/Max 21/45)"

/-! ## Helper lemmas -/

/-- Indexing a one-field object is an equality test on the key. -/
lemma index_singleton (f key : String) (v : Json) :
    (Json.obj [(f, v)]).index key = if f == key then v else Json.null := by
  simp [Json.index, Json.getKey]


/-- One iteration of the hint loop: a successful attempt returns its
extraction, any failing attempt falls through to the remaining hints. -/
lemma probe_go_cons (runner : String → Attempt) (device dt : String) (rest : List String) :
    probe_go runner device (dt :: rest) =
      match attempt_outcome (runner dt) with
      | some info => Except.ok info
      | none => probe_go runner device rest := by
  cases h : runner dt with
  | spawn_err => simp [probe_go, attempt_outcome, h]
  | wait_err => simp [probe_go, attempt_outcome, h]
  | completed ok stdout parsed =>
    by_cases hs : (stdout != "") = true
    · cases hp : parse_smartctl_output parsed stdout with
      | ok info => simp [probe_go, attempt_outcome, h, hs, hp]
      | error e => simp [probe_go, attempt_outcome, h, hs, hp]
    · simp [probe_go, attempt_outcome, h, hs]

/-- The hint loop returns the first successful attempt outcome in hint
order, and the all-attempts-failed error when there is none. -/
lemma probe_go_eq (runner : String → Attempt) (device : String) (l : List String) :
    probe_go runner device l =
      match (l.filterMap (fun dt => attempt_outcome (runner dt))).head? with
      | some info => Except.ok info
      | none => Except.error ("All attempts failed for device: " ++ device) := by
  induction l with
  | nil => rfl
  | cons dt rest ih =>
    rw [probe_go_cons, List.filterMap_cons]
    cases h : attempt_outcome (runner dt) with
    | some info => simp only [h, List.head?_cons]
    | none => simp only [h]; exact ih

/-- A line contributes a device path exactly when it has a name column, a
type column equal to disk, and the built path avoids both excluded
prefixes. -/
lemma lsblk_line_device_eq_some (line p : String) :
    lsblk_line_device line = some p ↔
      ∃ name rest, splitWhitespace line = name :: "disk" :: rest ∧
        p = "/dev/" ++ name ∧
        strStartsWith p "/dev/zd" = false ∧ strStartsWith p "/dev/fd" = false := by
  unfold lsblk_line_device
  cases hsplit : splitWhitespace line with
  | nil => simp
  | cons name tl =>
    cases tl with
    | nil => simp
    | cons ty rest =>
      constructor
      · intro h
        dsimp only at h
        by_cases hty : (ty == "disk") = true
        · rw [if_pos hty] at h
          by_cases hex : (!strStartsWith ("/dev/" ++ name) "/dev/zd" &&
              !strStartsWith ("/dev/" ++ name) "/dev/fd") = true
          · rw [if_pos hex] at h
            have hp : p = "/dev/" ++ name := (Option.some.inj h).symm
            have hex' := hex
            simp only [Bool.and_eq_true, Bool.not_eq_true'] at hex'
            have hty' : ty = "disk" := by simpa using hty
            refine ⟨name, rest, ?_, hp, ?_, ?_⟩
            · rw [hty']
            · rw [hp]; exact hex'.1
            · rw [hp]; exact hex'.2
          · rw [if_neg hex] at h; cases h
        · rw [if_neg hty] at h; cases h
      · rintro ⟨name2, rest2, heq, hp, hz, hf⟩
        have h1 : name = name2 ∧ ty = "disk" ∧ rest = rest2 := by simpa using heq
        obtain ⟨e1, e2, e3⟩ := h1
        subst e2
        rw [← e1] at hp
        rw [hp] at hz hf
        dsimp only
        rw [if_pos (by simp : (("disk" : String) == "disk") = true)]
        rw [if_pos (by simp [hz, hf] : (!strStartsWith ("/dev/" ++ name) "/dev/zd" &&
              !strStartsWith ("/dev/" ++ name) "/dev/fd") = true)]
        rw [hp]

/-- The code's temperature chain coincides with the four-step prioritized
chain 4a-4d. -/
lemma resolve_eq_chain4 (j : Json) : resolve_temperature j = spec_temp_chain4 j := rfl

/-! ## Claims -/

/-- Claim C1, counterexample.  The claim states that a structured parse
success with no recognizable fields returns the sentinel vendor "Unknown
Vendor" and sentinel model "Unknown Model".  On the empty JSON object the
code instead splits the model sentinel on whitespace: it returns vendor
"Unknown" and model "Model". -/
theorem c1_counterexample :
    parse_smartctl_output (some (Json.obj [])) "" = .ok ("Unknown", "Model", none) ∧
    ("Unknown", "Model") ≠ ("Unknown Vendor", "Unknown Model") :=
  ⟨rfl, by decide⟩

/-- Claim C1, amended.  A successful structured parse with no recognizable
vendor, model, or temperature field is not Unusable: it returns vendor
"Unknown" and model "Model" (the "Unknown Model" sentinel split on
whitespace by the vendor-guess heuristic) and an absent temperature; and
extraction is Unusable only when the structured parse failed and the text
fallback yielded no temperature. -/
theorem c1_amended :
    (∀ j raw, (Json.index j "scsi_vendor").as_str = none →
       (Json.index j "scsi_product").as_str = none →
       (Json.index j "model_name").as_str = none →
       (Json.index j "model_family").as_str = none →
       (Json.index j "scsi_model_name").as_str = none →
       resolve_temperature j = none →
       parse_smartctl_output (some j) raw = .ok ("Unknown", "Model", none)) ∧
    (∀ parsed raw msg, parse_smartctl_output parsed raw = .error msg →
       parsed = none ∧ extract_temperature_from_text raw = none) := by
  constructor
  · intro j raw h1 h2 h3 h4 h5 h6
    unfold parse_smartctl_output parse_json_doc resolve_model guess_vendor_model
    simp only [h1, h2, h3, h4, h5, h6, Option.orElse, Option.getD_none]
    simp
    exact ⟨by decide, by decide⟩
  · intro parsed raw msg h
    cases parsed with
    | some j => exact absurd h (by simp [parse_smartctl_output])
    | none =>
      cases ht : extract_temperature_from_text raw with
      | some t => rw [parse_smartctl_output] at h; simp [ht] at h
      | none => exact ⟨rfl, rfl⟩

/-- Claim C1, witness for the amended theorem at the empty object and at
an unparseable raw text. -/
theorem c1_amended_witness :
    parse_smartctl_output (some (Json.obj [])) "x" = .ok ("Unknown", "Model", none) ∧
    ((none : Option Json) = none ∧ extract_temperature_from_text "no data" = none) :=
  ⟨c1_amended.1 (Json.obj []) "x" rfl rfl rfl rfl rfl rfl,
   c1_amended.2 none "no data" "Failed to parse smartctl output" rfl⟩

/-- Claim C2, counterexample.  The claim describes a five-step temperature
chain whose last step reads a device-family-specific flat temperature
field, necessarily distinct from the generic flat "temperature" field of
step b.  No choice of such a field makes the code's chain equal to the
five-step chain: a document holding only that field under an integer
would have to yield that integer, but the code's chain yields none. -/
theorem c2_counterexample :
    ¬ ∃ f : String, f ≠ "temperature" ∧
        ∀ j, resolve_temperature j = spec_temp_chain5 f j := by
  rintro ⟨f, hf, h⟩
  have hft : (f == "temperature") = false := beq_eq_false_iff_ne.mpr hf
  have hL : resolve_temperature (Json.obj [(f, Json.num 42)]) = none := by
    unfold resolve_temperature
    rw [index_singleton, index_singleton, index_singleton, hft]
    cases hc : f == "nvme_smart_health_information_log" <;>
      cases ha : f == "ata_smart_attributes" <;>
        simp [hc, ha, Json.index, Json.as_i64, Json.as_array, Option.orElse]
  have hR : spec_temp_chain5 f (Json.obj [(f, Json.num 42)]) = some 42 := by
    unfold spec_temp_chain5
    rw [← resolve_eq_chain4, hL, index_singleton]
    simp [Json.as_i64, Option.orElse]
  have h42 := h (Json.obj [(f, Json.num 42)])
  rw [hL, hR] at h42
  cases h42

/-- Claim C2, amended.  The extractor resolves temperature through the
four-step chain: nested temperature.current, flat temperature, the NVMe
health-log temperature, then the attribute-table scan, first present value
winning and absent otherwise (there is no fifth flat fallback); a
document with a temperature.current field returns that integer unchanged,
and a document whose only temperature source is a Temperature_Celsius
attribute with raw value 41 returns 41. -/
theorem c2_amended :
    (∀ j, resolve_temperature j = spec_temp_chain4 j) ∧
    (∀ j n, (Json.index j "temperature").index "current" = Json.num n →
       resolve_temperature j = some n) ∧
    resolve_temperature doc_attr41 = some 41 := by
  refine ⟨resolve_eq_chain4, ?_, rfl⟩
  intro j n h
  unfold resolve_temperature
  rw [h]
  rfl

/-- Claim C2, witness for the amended theorem at a document carrying
temperature.current equal to 37. -/
theorem c2_amended_witness : resolve_temperature doc_current37 = some 37 :=
  c2_amended.2.1 doc_current37 37 rfl

/-- Claim C3, counterexample.  The claim lists sata as the final hint, but
the hint table holds no sata entry: a runner succeeding only under the
sata hint (here with a parseable document) leaves the probe failing after
the four real hints, where the claim predicts success with that
attempt's result. -/
theorem c3_counterexample :
    ¬ ("sata" ∈ DEVICE_TYPES) ∧
    attempt_outcome (Attempt.completed true "x" (some (Json.obj []))) =
      some ("Unknown", "Model", none) ∧
    get_disk_info_and_temperature
      (fun dt => if dt == "sata" then Attempt.completed true "x" (some (Json.obj []))
                 else Attempt.spawn_err)
      "/dev/sda" = .error "All attempts failed for device: /dev/sda" :=
  ⟨by decide, rfl, rfl⟩

/-- Claim C3, amended.  The prober first attempts the command with no
device-type hint and then retries once per remaining hint in the order
ata, sat, scsi, nvme (there is no sata hint), stopping at the first hint
whose extraction succeeds and returning that attempt's result, and
failing with the all-attempts-failed error otherwise. -/
theorem c3_amended :
    DEVICE_TYPES = ["", "ata", "sat", "scsi", "nvme"] ∧
    (∀ d : String, smartctl_args "" d = ["--json", "-a", d]) ∧
    (∀ dt d : String, dt ≠ "" → smartctl_args dt d = ["--json", "-a", "-d", dt, d]) ∧
    (∀ runner device, get_disk_info_and_temperature runner device =
       match (DEVICE_TYPES.filterMap (fun dt => attempt_outcome (runner dt))).head? with
       | some info => Except.ok info
       | none => Except.error ("All attempts failed for device: " ++ device)) := by
  refine ⟨rfl, fun d => rfl, ?_, fun runner device => probe_go_eq runner device DEVICE_TYPES⟩
  intro dt d h
  simp [smartctl_args, h]

/-- Claim C3, witness for the amended theorem: the argument vector built
for the ata hint. -/
theorem c3_amended_witness :
    smartctl_args "ata" "/dev/sda" = ["--json", "-a", "-d", "ata", "/dev/sda"] :=
  c3_amended.2.2.1 "ata" "/dev/sda" (by decide)

/-- The line loop of the text fallback equals the first qualifying token
over the matching lines in order. -/
lemma scan_lines_eq (ls : List String) :
    scan_lines ls = (ls.filterMap (fun line =>
      if containsStr line "Temperature" || containsStr line "Airflow_Temperature" then
        temp_token line
      else none)).head? := by
  induction ls with
  | nil => rfl
  | cons line rest ih =>
    rw [List.filterMap_cons]
    by_cases hc : (containsStr line "Temperature" || containsStr line "Airflow_Temperature") = true
    · cases ht : temp_token line with
      | some t => simp only [scan_lines, hc, if_true, ht, List.head?_cons]
      | none => simp only [scan_lines, hc, if_true, ht]; exact ih
    · simp only [scan_lines, hc, Bool.false_eq_true, if_false]
      exact ih

/-- Claim C4, counterexample.  The claim states the text fallback matches
lines case-insensitively on the substrings temperature and temp.  The
code matches the capitalized substring Temperature only: a non-JSON
output whose line contains temp and the in-range token 40 yields no
temperature and extraction is Unusable. -/
theorem c4_counterexample :
    containsStr "temp 40" "temp" = true ∧
    rustParseI64 "40" = some 40 ∧
    extract_temperature_from_text "temp 40" = none ∧
    parse_smartctl_output none "temp 40" = .error "Failed to parse smartctl output" :=
  ⟨rfl, rfl, rfl, rfl⟩

/-- Claim C4, amended.  When the structured parse fails the extractor
scans the text line by line case-sensitively; on each line containing the
substring "Temperature" (the code also names "Airflow_Temperature", which
is subsumed) it keeps the first whitespace-delimited token parseable as
an integer strictly between 0 and 150, returning the first such value
with the sentinel vendor and model; a line such as the
194 Temperature_Celsius attribute row yields 35, and a lowercase
"temperature" is not matched. -/
theorem c4_amended :
    (∀ raw, extract_temperature_from_text raw = amended_text_scan raw) ∧
    parse_smartctl_output none line194 = .ok ("Unknown Vendor", "Unknown Model", some 35) ∧
    containsStr "temperature" "Temperature" = false :=
  ⟨fun raw => scan_lines_eq (rustLines raw), rfl, rfl⟩

/-- Claim C5, counterexample.  The claim gives the family-string token
priority over the explicit vendor field.  On a document holding a family
string next to a non-empty scsi_vendor and scsi_product pair the code
returns the explicit vendor, not the family's first token. -/
theorem c5_counterexample :
    parse_smartctl_output (some doc_family_and_scsi) "" = .ok ("ACME", "X100", none) ∧
    "ACME" ≠ "Seagate" :=
  ⟨rfl, by decide⟩

/-- Claim C5, amended.  The extractor resolves the vendor (and model) as
follows: when both scsi_vendor and scsi_product are present and non-empty
they are the vendor and model; otherwise the vendor is the first
whitespace token of the model string (model_name, else model_family, else
scsi_model_name, else the "Unknown Model" sentinel), defaulting to
"Unknown Vendor" when that string has no tokens, and the model is the
remaining tokens joined by single spaces. -/
theorem c5_amended (j : Json) (raw : String) :
    parse_smartctl_output (some j) raw =
      .ok (amended_vendor j, amended_model j, resolve_temperature j) := by
  unfold parse_smartctl_output parse_json_doc amended_vendor amended_model guess_vendor_model
  by_cases h : (((Json.index j "scsi_vendor").as_str).getD "" != "" &&
      ((Json.index j "scsi_product").as_str).getD "" != "") = true
  · simp [h]
  · simp [h]

/-- Claim C6, confirmed.  For a document exposing only a family string
(no model_name, and no complete scsi vendor and product pair) the vendor
is the family string's first whitespace token and the model is the
remaining tokens joined by single spaces. -/
theorem c6_family_split (j : Json) (raw fam v : String) (rest : List String)
    (hmn : (Json.index j "model_name").as_str = none)
    (hmf : (Json.index j "model_family").as_str = some fam)
    (hvp : ((Json.index j "scsi_vendor").as_str).getD "" = "" ∨
           ((Json.index j "scsi_product").as_str).getD "" = "")
    (hsplit : splitWhitespace fam = v :: rest) :
    parse_smartctl_output (some j) raw =
      .ok (v, String.intercalate " " rest, resolve_temperature j) := by
  unfold parse_smartctl_output parse_json_doc resolve_model guess_vendor_model
  have hcond : (((Json.index j "scsi_vendor").as_str).getD "" != "" &&
      ((Json.index j "scsi_product").as_str).getD "" != "") = false := by
    rcases hvp with h | h <;> simp [h]
  simp [hcond, hmn, hmf, hsplit, Option.orElse]

/-- Claim C6, witness at a document holding only the family string
Seagate IronWolf Pro. -/
theorem c6_family_split_witness :
    parse_smartctl_output (some doc_family_only) "" =
      .ok ("Seagate", "IronWolf Pro", none) :=
  c6_family_split doc_family_only "" "Seagate IronWolf Pro" "Seagate" ["IronWolf", "Pro"]
    rfl rfl (Or.inl rfl) rfl

/-- Claim C7, confirmed.  A failing invocation (spawn error, wait error or
empty stdout; the exit status of a completed invocation is never
consulted, so nonzero exit with non-empty stdout is still inspected) or
an Unusable extraction makes the loop continue with the next hint, and
when every hint's attempt fails the probe returns the error naming the
device and that all attempts failed. -/
theorem c7_attempt_independence :
    (∀ runner device dt rest, attempt_outcome (runner dt) = none →
       probe_go runner device (dt :: rest) = probe_go runner device rest) ∧
    (∀ e1 e2 stdout parsed, attempt_outcome (Attempt.completed e1 stdout parsed) =
       attempt_outcome (Attempt.completed e2 stdout parsed)) ∧
    (attempt_outcome Attempt.spawn_err = none ∧ attempt_outcome Attempt.wait_err = none ∧
       ∀ e parsed, attempt_outcome (Attempt.completed e "" parsed) = none) ∧
    (∀ runner device, (∀ dt, dt ∈ DEVICE_TYPES → attempt_outcome (runner dt) = none) →
       get_disk_info_and_temperature runner device =
         .error ("All attempts failed for device: " ++ device)) := by
  refine ⟨?_, fun e1 e2 stdout parsed => rfl, ⟨rfl, rfl, fun e parsed => rfl⟩, ?_⟩
  · intro runner device dt rest h
    rw [probe_go_cons, h]
  · intro runner device h
    unfold get_disk_info_and_temperature
    rw [probe_go_eq]
    have hnil : DEVICE_TYPES.filterMap (fun dt => attempt_outcome (runner dt)) = [] :=
      List.filterMap_eq_nil_iff.mpr h
    rw [hnil]
    rfl

/-- Claim C7, witness: a runner that always fails to spawn makes one loop
step fall through and the whole probe fail with the device-naming
message. -/
theorem c7_attempt_independence_witness :
    probe_go (fun _ => Attempt.spawn_err) "/dev/sda" ("ata" :: []) =
      probe_go (fun _ => Attempt.spawn_err) "/dev/sda" [] ∧
    get_disk_info_and_temperature (fun _ => Attempt.spawn_err) "/dev/sda" =
      .error "All attempts failed for device: /dev/sda" :=
  ⟨c7_attempt_independence.1 (fun _ => Attempt.spawn_err) "/dev/sda" "ata" [] rfl,
   c7_attempt_independence.2.2.2 (fun _ => Attempt.spawn_err) "/dev/sda" (fun _ _ => rfl)⟩

/-- Claim C8, confirmed.  A path is in the enumerated device list exactly
when some line of the listing output has a name column and the type
column disk, the path is /dev/<name>, and the path starts with neither
/dev/zd nor /dev/fd. -/
theorem c8_device_enumeration (stdout p : String) :
    p ∈ get_all_disk_devices stdout ↔
      ∃ line ∈ rustLines stdout, ∃ name rest,
        splitWhitespace line = name :: "disk" :: rest ∧ p = "/dev/" ++ name ∧
        strStartsWith p "/dev/zd" = false ∧ strStartsWith p "/dev/fd" = false := by
  unfold get_all_disk_devices
  rw [List.mem_filterMap]
  constructor
  · rintro ⟨line, hl, hsome⟩
    exact ⟨line, hl, (lsblk_line_device_eq_some line p).mp hsome⟩
  · rintro ⟨line, hl, hrest⟩
    exact ⟨line, hl, (lsblk_line_device_eq_some line p).mpr hrest⟩

/-- Claim C9, confirmed.  In the attribute-table scan a name-matching
entry carrying no integer in raw.value or value contributes nothing and
is skipped, and the scan returns the value of the first entry that does
contribute one. -/
theorem c9_nonnumeric_skipped :
    (∀ attr rest, attr_temp attr = none → scan_table (attr :: rest) = scan_table rest) ∧
    (∀ attr name, (Json.index attr "name").as_str = some name →
       (containsStr (lowerStr name) "temperature" || containsStr (lowerStr name) "temp") = true →
       ((Json.index attr "raw").index "value").as_i64 = none →
       (Json.index attr "value").as_i64 = none →
       attr_temp attr = none) ∧
    (∀ attr rest v, attr_temp attr = some v → scan_table (attr :: rest) = some v) := by
  refine ⟨?_, ?_, ?_⟩
  · intro attr rest h
    simp [scan_table, List.filterMap_cons, h]
  · intro attr name h1 h2 h3 h4
    simp [attr_temp, h1, h2, h3, h4, Option.orElse]
  · intro attr rest v h
    simp [scan_table, List.filterMap_cons, h]

/-- Claim C9, witness: a matching text-valued entry followed by a
matching numeric entry; the scan skips the first and returns 39. -/
theorem c9_nonnumeric_skipped_witness :
    scan_table [attr_text_entry, attr_num_entry] = scan_table [attr_num_entry] ∧
    attr_temp attr_text_entry = none ∧
    scan_table [attr_num_entry] = some 39 :=
  ⟨c9_nonnumeric_skipped.1 attr_text_entry [attr_num_entry] rfl,
   c9_nonnumeric_skipped.2.1 attr_text_entry "Temperature_Celsius" rfl rfl rfl rfl,
   c9_nonnumeric_skipped.2.2 attr_num_entry [] 39 rfl⟩

/-- Claim C10, confirmed.  A device whose probe fails yields the record
with the literal Failed vendor and model (distinct from the Unknown
sentinels), the error message in the temperature column and the FAIL
status; the collection holds exactly one record per device, each built
from that device's own probe result. -/
theorem c10_failure_record :
    (∀ device e, make_record device (.error e) = (device, "Failed", "Failed", e, "FAIL")) ∧
    ("Failed" ≠ "Unknown Vendor" ∧ "Failed" ≠ "Unknown Model") ∧
    (∀ devices probe, (run_all devices probe).length = devices.length) ∧
    (∀ devices probe (i : Nat), (run_all devices probe)[i]? =
       (devices[i]?).map (fun device => make_record device (probe device))) := by
  refine ⟨fun device e => rfl, ⟨by decide, by decide⟩, ?_, ?_⟩
  · intro devices probe
    simp [run_all]
  · intro devices probe i
    simp [run_all, List.getElem?_map]
